import Mathlib

/-!
Verification of the elevation-acquisition / grid-preparation workflow of the
`bedrock_landslides_on_dems` notebook.

The notebook sequences calls to two external libraries: `bmi_topography`
(elevation fetch and cache) and `landlab` (grids, flow routing, landslides).
Elevation samples are modelled as exact rationals (`ℚ`); the mutable numpy
arrays holding a grid's node fields are modelled as references into an
explicit `Store`, so that copying versus aliasing of elevation arrays is
observable in the model.
-/

namespace LandslideNotebook

/-- An explicit heap of elevation arrays.  Each numpy array that backs a
grid field lives at an index of `data`; grids hold references (indices)
into the store. -/
structure Store where
  data : List (List ℚ)
deriving Repr, DecidableEq

/-- Dereference an array; an invalid reference reads as the empty array. -/
def Store.read (s : Store) (r : Nat) : List ℚ :=
  s.data.getD r []

/-- Allocate a fresh array holding `a`, returning the new store and the
fresh reference. -/
def Store.alloc (s : Store) (a : List ℚ) : Store × Nat :=
  ({ data := s.data ++ [a] }, s.data.length)

/-- Overwrite the array at reference `r`. -/
def Store.write (s : Store) (r : Nat) (a : List ℚ) : Store :=
  { data := s.data.set r a }

/-- A reference is valid when it points inside the store. -/
def Store.validRef (s : Store) (r : Nat) : Prop :=
  r < s.data.length

instance (s : Store) (r : Nat) : Decidable (s.validRef r) :=
  inferInstanceAs (Decidable (r < s.data.length))

/-- In-place update of one entry of the array at reference `r`
(a single element assignment into a numpy field array). -/
def setElev (s : Store) (r : Nat) (i : Nat) (v : ℚ) : Store :=
  s.write r ((s.read r).set i v)

/-- A grid in geographic (degree) coordinates: shape plus a reference to the
flat node-order elevation array (`grid_geog` with its
`topographic__elevation` field). -/
structure GeographicGrid where
  rows : Nat
  cols : Nat
  elevRef : Nat
deriving Repr, DecidableEq

/-- A grid with uniform metric spacing: shape, spacing, and a reference to
the flat node-order elevation array (`grid` built by `RasterModelGrid`). -/
structure ProjectedGrid where
  rows : Nat
  cols : Nat
  spacing : ℚ
  elevRef : Nat
deriving Repr, DecidableEq

/-- Elevation of a geographic grid at (row, col): node fields are flat
row-major arrays, node index `row * cols + col`. -/
def GeographicGrid.elev (g : GeographicGrid) (s : Store) (r c : Nat) : ℚ :=
  (s.read g.elevRef).getD (r * g.cols + c) 0

/-- Elevation of a projected grid at (row, col). -/
def ProjectedGrid.elev (p : ProjectedGrid) (s : Store) (r c : Nat) : ℚ :=
  (s.read p.elevRef).getD (r * p.cols + c) 0

/-- Error raised when a metric grid is requested with a non-positive
spacing. -/
inductive ShapeError where
  | nonPositiveSpacing
deriving Repr, DecidableEq

/-- The notebook's reprojection step (cell 18):
`grid = RasterModelGrid(grid_geog.shape, xy_spacing=30.0)` followed by
`grid.at_node["topographic__elevation"] = grid_geog.at_node["topographic__elevation"]`.
Modelled from the spec: the construction and shape come from the notebook
cell; the guard (`ShapeError` if `spacing_m <= 0`) and the copy semantics of
the field assignment (derived-by-copy, independent storage) are contracts of
the external landlab library, not under src/, taken from the spec's
`reproject_to_metric` contract (§4.2) and data model (§3).  The elevation
field is copied into a freshly allocated array. -/
def reproject_to_metric (s : Store) (source : GeographicGrid) (spacing_m : ℚ) :
    Except ShapeError (Store × ProjectedGrid) :=
  if spacing_m ≤ 0 then
    .error .nonPositiveSpacing
  else
    let a := s.alloc (s.read source.elevRef)
    .ok (a.1, { rows := source.rows, cols := source.cols,
                spacing := spacing_m, elevRef := a.2 })

/-! Basic store lemmas. -/

theorem Store.read_alloc_fresh (s : Store) (a : List ℚ) :
    (s.alloc a).1.read (s.alloc a).2 = a := by
  simp [Store.alloc, Store.read, List.getD, List.getElem?_concat_length]

theorem Store.read_alloc_old (s : Store) (a : List ℚ) (r : Nat)
    (h : r < s.data.length) :
    (s.alloc a).1.read r = s.read r := by
  simp only [Store.alloc, Store.read, List.getD_eq_getElem?_getD]
  rw [List.getElem?_append_left h]

theorem Store.read_write_ne (s : Store) (r r' : Nat) (a : List ℚ)
    (h : r' ≠ r) :
    (s.write r' a).read r = s.read r := by
  simp only [Store.write, Store.read, List.getD_eq_getElem?_getD]
  rw [List.getElem?_set_ne h]

/-- C1: for every geographic grid and positive spacing, reprojection
succeeds and yields a projected grid of the same shape whose elevation
agrees with the source at every (row, col). -/
theorem reproject_to_metric_shape_and_values (s : Store) (g : GeographicGrid)
    (spacing_m : ℚ) (hsp : 0 < spacing_m) (hg : s.validRef g.elevRef) :
    ∃ s' p, reproject_to_metric s g spacing_m = .ok (s', p) ∧
      p.rows = g.rows ∧ p.cols = g.cols ∧
      ∀ r c, r < g.rows → c < g.cols → p.elev s' r c = g.elev s' r c := by
  refine ⟨(s.alloc (s.read g.elevRef)).1,
    ⟨g.rows, g.cols, spacing_m, (s.alloc (s.read g.elevRef)).2⟩, ?_, rfl, rfl, ?_⟩
  · rw [reproject_to_metric, if_neg (not_le.mpr hsp)]
  · intro r c _ _
    show ((s.alloc (s.read g.elevRef)).1.read (s.alloc (s.read g.elevRef)).2).getD _ 0 = _
    rw [Store.read_alloc_fresh]
    unfold GeographicGrid.elev
    rw [Store.read_alloc_old s _ _ hg]

/-- C1 witness: a concrete 2×2 grid reprojected at spacing 30. -/
theorem reproject_to_metric_shape_and_values_witness :
    (0 : ℚ) < 30 ∧ Store.validRef ⟨[[1, 2, 3, 4]]⟩ 0 ∧
    ∃ s' p, reproject_to_metric ⟨[[1, 2, 3, 4]]⟩ ⟨2, 2, 0⟩ 30 = .ok (s', p) ∧
      p.rows = 2 ∧ p.cols = 2 ∧
      ∀ r c, r < 2 → c < 2 →
        p.elev s' r c = GeographicGrid.elev ⟨2, 2, 0⟩ s' r c :=
  ⟨by norm_num, by decide,
    reproject_to_metric_shape_and_values ⟨[[1, 2, 3, 4]]⟩ ⟨2, 2, 0⟩ 30
      (by norm_num) (by decide)⟩

/-- C2: the projected grid's elevation array is a fresh copy: it is a
different reference from the source's, and mutating either grid's
elevation array leaves the other's array unchanged. -/
theorem reproject_to_metric_independent (s : Store) (g : GeographicGrid)
    (spacing_m : ℚ) (s' : Store) (p : ProjectedGrid)
    (hg : s.validRef g.elevRef)
    (h : reproject_to_metric s g spacing_m = .ok (s', p)) :
    p.elevRef ≠ g.elevRef ∧
    (∀ i v, (setElev s' p.elevRef i v).read g.elevRef = s'.read g.elevRef) ∧
    (∀ i v, (setElev s' g.elevRef i v).read p.elevRef = s'.read p.elevRef) := by
  rw [reproject_to_metric] at h
  by_cases hsp : spacing_m ≤ 0
  · rw [if_pos hsp] at h; exact absurd h (by simp)
  · rw [if_neg hsp] at h
    injection h with h1
    injection h1 with hs hp
    have href : p.elevRef = s.data.length := by rw [← hp]; rfl
    have hne : p.elevRef ≠ g.elevRef := by
      rw [href]; exact fun hEq => absurd hg (by rw [Store.validRef, ← hEq]; omega)
    refine ⟨hne, fun i v => ?_, fun i v => ?_⟩
    · exact Store.read_write_ne _ _ _ _ hne
    · exact Store.read_write_ne _ _ _ _ (Ne.symm hne)

/-- C2 witness: on a concrete grid, the copy is independent. -/
theorem reproject_to_metric_independent_witness :
    Store.validRef ⟨[[1, 2]]⟩ 0 ∧
    reproject_to_metric ⟨[[1, 2]]⟩ ⟨1, 2, 0⟩ 30 =
      .ok (⟨[[1, 2], [1, 2]]⟩, ⟨1, 2, 30, 1⟩) ∧
    ((1 : Nat) ≠ 0 ∧
     (∀ i v, (setElev ⟨[[1, 2], [1, 2]]⟩ 1 i v).read 0 =
        Store.read ⟨[[1, 2], [1, 2]]⟩ 0) ∧
     (∀ i v, (setElev ⟨[[1, 2], [1, 2]]⟩ 0 i v).read 1 =
        Store.read ⟨[[1, 2], [1, 2]]⟩ 1)) :=
  ⟨by decide, by rfl,
    reproject_to_metric_independent ⟨[[1, 2]]⟩ ⟨1, 2, 0⟩ 30
      ⟨[[1, 2], [1, 2]]⟩ ⟨1, 2, 30, 1⟩ (by decide) (by rfl)⟩

/-- C6: reprojection with non-positive spacing fails with `ShapeError` and
produces no projected grid. -/
theorem reproject_to_metric_nonpositive_spacing (s : Store)
    (g : GeographicGrid) (spacing_m : ℚ) (hsp : spacing_m ≤ 0) :
    reproject_to_metric s g spacing_m = .error ShapeError.nonPositiveSpacing := by
  rw [reproject_to_metric, if_pos hsp]

/-- C6 witness: spacing 0 on a concrete grid fails with `ShapeError`. -/
theorem reproject_to_metric_nonpositive_spacing_witness :
    (0 : ℚ) ≤ 0 ∧
    reproject_to_metric ⟨[[1, 2]]⟩ ⟨1, 2, 0⟩ 0 =
      .error ShapeError.nonPositiveSpacing :=
  ⟨le_refl 0, reproject_to_metric_nonpositive_spacing ⟨[[1, 2]]⟩ ⟨1, 2, 0⟩ 0 (le_refl 0)⟩


/-! ## Elevation Fetcher/Cache

The notebook constructs `Topography(dem_type="SRTMGL1", south=39.93,
north=40.0, west=-105.33, east=-105.26, output_format="AAIGrid",
cache_dir="DEMData//")` and calls `topo.fetch()`.  The fetch-and-cache
logic itself lives in the external bmi_topography library, not under
src/, so it is modelled from the spec's `resolve` contract (§4.1). -/

/-- A geographic bounding box in decimal degrees. -/
structure BoundingBox where
  south : ℚ
  north : ℚ
  west : ℚ
  east : ℚ
deriving Repr, DecidableEq

/-- A bounding box is valid when south < north and west < east. -/
def BoundingBox.valid (b : BoundingBox) : Bool :=
  decide (b.south < b.north) && decide (b.west < b.east)

/-- Modelled from the spec: the enum of supported source datasets ("enum of
supported source datasets", §3); the notebook uses "SRTMGL1". -/
def supportedDatasets : List String :=
  ["SRTMGL1", "SRTMGL3", "AW3D30", "NASADEM", "COP30", "COP90"]

/-- The parameters of one elevation request (the `Topography` constructor
arguments).  Immutable once constructed. -/
structure RasterRequest where
  dataset_id : String
  bounding_box : BoundingBox
  output_format : String
  cache_directory : String
deriving Repr, DecidableEq

/-- The deterministic cache key derived from a request's dataset id,
bounding box and output format. -/
structure CacheKey where
  dataset_id : String
  bounding_box : BoundingBox
  output_format : String
deriving Repr, DecidableEq

def cacheKey (req : RasterRequest) : CacheKey :=
  ⟨req.dataset_id, req.bounding_box, req.output_format⟩

/-- The path of a cache entry: the cache directory plus the key-derived
file name. -/
structure CachePath where
  dir : String
  key : CacheKey
deriving Repr, DecidableEq

/-- The cache location derived from a request. -/
def cachePathOf (req : RasterRequest) : CachePath :=
  ⟨req.cache_directory, cacheKey req⟩

/-- State of the on-disk cache together with a count of completed network
transfers (for stating the no-network-access properties). -/
structure FetchState where
  cache : List (CacheKey × List Nat)
  transfers : Nat
deriving Repr, DecidableEq

/-- The typed errors of the workflow's fetch stage. -/
inductive FetchError where
  | RequestError
  | TransferError
  | StorageError
deriving Repr, DecidableEq

/-- Look a key up in the cache (the existence check on the derived cache
location). -/
def lookupCache (c : List (CacheKey × List Nat)) (k : CacheKey) :
    Option (List Nat) :=
  (c.find? fun e => decide (e.1 = k)).map (fun e => e.2)

/-- Modelled from the spec: `resolve(request) -> FilePath` of the Elevation
Fetcher/Cache (§4.1), implemented by the external bmi_topography library
(`Topography.fetch`), not under src/.  `remote` is the remote
elevation-data provider (`none` means unreachable or non-success status);
`storageOk` is whether the cache directory can be created and written.
Validation happens first (RequestError, no network); a cache hit returns
the derived path with no state change; a cache miss transfers the raster
bytes, appends exactly one cache entry and counts one transfer. -/
def resolve (remote : CacheKey → Option (List Nat)) (storageOk : Bool)
    (st : FetchState) (req : RasterRequest) :
    Except FetchError CachePath × FetchState :=
  if ¬ req.bounding_box.valid then
    (.error .RequestError, st)
  else if req.dataset_id ∉ supportedDatasets then
    (.error .RequestError, st)
  else
    match lookupCache st.cache (cacheKey req) with
    | some _ => (.ok (cachePathOf req), st)
    | none =>
      if ¬ storageOk then
        (.error .StorageError, st)
      else
        match remote (cacheKey req) with
        | none => (.error .TransferError, st)
        | some bytes =>
          (.ok (cachePathOf req),
           { cache := st.cache ++ [(cacheKey req, bytes)],
             transfers := st.transfers + 1 })

theorem lookupCache_append_self (c : List (CacheKey × List Nat))
    (k : CacheKey) (b : List Nat) (h : lookupCache c k = none) :
    lookupCache (c ++ [(k, b)]) k = some b := by
  induction c with
  | nil => simp [lookupCache]
  | cons e c ih =>
    by_cases he : e.1 = k
    · exfalso
      rw [lookupCache, List.find?_cons_of_pos _ (by simp [he])] at h
      simp at h
    · rw [lookupCache, List.find?_cons_of_neg _ (by simp [he])] at h
      show lookupCache (e :: (c ++ [(k, b)])) k = some b
      rw [lookupCache, List.find?_cons_of_neg _ (by simp [he])]
      exact ih h

theorem lookupCache_append_other (c : List (CacheKey × List Nat))
    (k k' : CacheKey) (b : List Nat) (h : k' ≠ k) :
    lookupCache (c ++ [(k, b)]) k' = lookupCache c k' := by
  induction c with
  | nil =>
    show lookupCache ((k, b) :: []) k' = lookupCache [] k'
    rw [lookupCache, lookupCache,
      List.find?_cons_of_neg _ (by simp only [decide_eq_true_eq]; exact Ne.symm h)]
  | cons e c ih =>
    by_cases he : e.1 = k'
    · show lookupCache (e :: (c ++ [(k, b)])) k' = lookupCache (e :: c) k'
      rw [lookupCache, lookupCache, List.find?_cons_of_pos _ (by simp [he]),
        List.find?_cons_of_pos _ (by simp [he])]
    · show lookupCache (e :: (c ++ [(k, b)])) k' = lookupCache (e :: c) k'
      rw [lookupCache, lookupCache, List.find?_cons_of_neg _ (by simp [he]),
        List.find?_cons_of_neg _ (by simp [he])]
      exact ih

/-- Unfolding of `resolve` on a valid, supported, uncached request whose
transfer succeeds. -/
theorem resolve_miss_eq (remote : CacheKey → Option (List Nat))
    (st : FetchState) (req : RasterRequest) (bytes : List Nat)
    (hvalid : req.bounding_box.valid = true)
    (hsupp : req.dataset_id ∈ supportedDatasets)
    (hmiss : lookupCache st.cache (cacheKey req) = none)
    (hremote : remote (cacheKey req) = some bytes) :
    resolve remote true st req =
      (.ok (cachePathOf req),
       { cache := st.cache ++ [(cacheKey req, bytes)],
         transfers := st.transfers + 1 }) := by
  rw [resolve, if_neg (by simp [hvalid]), if_neg (not_not_intro hsupp), hmiss,
    if_neg (by simp), hremote]

/-- C3: calling `resolve` twice with identical arguments, starting from a
state where the request is not cached and the provider succeeds, performs
exactly one network transfer in total; the second call is a cache hit that
changes nothing, and both calls return the same file path. -/
theorem resolve_twice_one_transfer (remote : CacheKey → Option (List Nat))
    (st : FetchState) (req : RasterRequest) (bytes : List Nat)
    (hvalid : req.bounding_box.valid = true)
    (hsupp : req.dataset_id ∈ supportedDatasets)
    (hmiss : lookupCache st.cache (cacheKey req) = none)
    (hremote : remote (cacheKey req) = some bytes) :
    (resolve remote true st req).1 = .ok (cachePathOf req) ∧
    (resolve remote true (resolve remote true st req).2 req).1 =
      .ok (cachePathOf req) ∧
    (resolve remote true (resolve remote true st req).2 req).2 =
      (resolve remote true st req).2 ∧
    (resolve remote true (resolve remote true st req).2 req).2.transfers =
      st.transfers + 1 := by
  have h1 := resolve_miss_eq remote st req bytes hvalid hsupp hmiss hremote
  have hhit : lookupCache (resolve remote true st req).2.cache (cacheKey req) =
      some bytes := by
    rw [h1]
    exact lookupCache_append_self _ _ _ hmiss
  have h2 : resolve remote true (resolve remote true st req).2 req =
      (.ok (cachePathOf req), (resolve remote true st req).2) := by
    rw [resolve, if_neg (by simp [hvalid]), if_neg (not_not_intro hsupp), hhit]
  refine ⟨by rw [h1], by rw [h2], by rw [h2], ?_⟩
  rw [h2, h1]

/-- 39.93 degrees as an exact rational (3993/100). -/
def deg3993 : ℚ := ⟨3993, 100, by decide, by decide⟩

/-- -105.33 degrees as an exact rational (-10533/100). -/
def degWest : ℚ := ⟨-10533, 100, by decide, by decide⟩

/-- -105.26 degrees as an exact rational (-5263/50). -/
def degEast : ℚ := ⟨-5263, 50, by decide, by decide⟩

/-- The notebook's bounding box: south=39.93, north=40.0, west=-105.33,
east=-105.26. -/
def demoBox : BoundingBox := ⟨deg3993, 40, degWest, degEast⟩

/-- The same box with south and north swapped: south=40.0, north=39.93. -/
def badBox : BoundingBox := ⟨40, deg3993, degWest, degEast⟩

/-- The notebook's request (`Topography` constructor arguments). -/
def demoRequest : RasterRequest := ⟨"SRTMGL1", demoBox, "AAIGrid", "DEMData//"⟩

/-- The notebook's request with the inverted bounding box. -/
def badRequest : RasterRequest := ⟨"SRTMGL1", badBox, "AAIGrid", "DEMData//"⟩

/-- A remote provider that answers every request with the bytes `[7]`. -/
def demoRemote : CacheKey → Option (List Nat) := fun _ => some [7]

/-- A pre-existing cache entry under a different key. -/
def oldEntry : CacheKey × List Nat := (⟨"NASADEM", ⟨1, 2, 3, 4⟩, "AAIGrid"⟩, [9])

/-- C3 witness: the notebook's request against an empty cache. -/
theorem resolve_twice_one_transfer_witness :
    demoRequest.bounding_box.valid = true ∧
    demoRequest.dataset_id ∈ supportedDatasets ∧
    lookupCache (FetchState.cache ⟨[], 0⟩) (cacheKey demoRequest) = none ∧
    demoRemote (cacheKey demoRequest) = some [7] ∧
    ((resolve demoRemote true ⟨[], 0⟩ demoRequest).1 =
        .ok (cachePathOf demoRequest) ∧
     (resolve demoRemote true (resolve demoRemote true ⟨[], 0⟩ demoRequest).2
        demoRequest).1 = .ok (cachePathOf demoRequest) ∧
     (resolve demoRemote true (resolve demoRemote true ⟨[], 0⟩ demoRequest).2
        demoRequest).2 = (resolve demoRemote true ⟨[], 0⟩ demoRequest).2 ∧
     (resolve demoRemote true (resolve demoRemote true ⟨[], 0⟩ demoRequest).2
        demoRequest).2.transfers = FetchState.transfers ⟨[], 0⟩ + 1) :=
  ⟨by decide, by decide, by decide, by decide,
    resolve_twice_one_transfer demoRemote ⟨[], 0⟩ demoRequest [7]
      (by decide) (by decide) (by decide) (by decide)⟩

/-- C4: an invalid bounding box or unsupported dataset id fails with
`RequestError` and leaves the state untouched (no network access, no
cache write). -/
theorem resolve_bad_request (remote : CacheKey → Option (List Nat))
    (storageOk : Bool) (st : FetchState) (req : RasterRequest)
    (h : req.bounding_box.valid = false ∨ req.dataset_id ∉ supportedDatasets) :
    resolve remote storageOk st req = (.error .RequestError, st) := by
  rcases h with h | h
  · rw [resolve, if_pos (by simp [h])]
  · by_cases hv : req.bounding_box.valid
    · rw [resolve, if_neg (by simp [hv]), if_pos h]
    · rw [resolve, if_pos (by simp [hv])]

/-- C4 witness: south=40.0, north=39.93 fails with `RequestError`, with no
state change (the transfer count stays 0 and the empty cache stays empty). -/
theorem resolve_bad_request_witness :
    (badRequest.bounding_box.valid = false ∨
     badRequest.dataset_id ∉ supportedDatasets) ∧
    resolve demoRemote true ⟨[], 0⟩ badRequest =
      (.error .RequestError, ⟨[], 0⟩) :=
  ⟨Or.inl (by decide),
    resolve_bad_request demoRemote true ⟨[], 0⟩ badRequest (Or.inl (by decide))⟩

/-- C7: on a cache miss, `resolve` appends exactly one new cache entry;
every entry with a different key is preserved unchanged, and the new entry
is present afterwards (nothing is evicted by the operation). -/
theorem resolve_miss_writes_one_file (remote : CacheKey → Option (List Nat))
    (st : FetchState) (req : RasterRequest) (bytes : List Nat)
    (hvalid : req.bounding_box.valid = true)
    (hsupp : req.dataset_id ∈ supportedDatasets)
    (hmiss : lookupCache st.cache (cacheKey req) = none)
    (hremote : remote (cacheKey req) = some bytes) :
    (resolve remote true st req).2.cache =
      st.cache ++ [(cacheKey req, bytes)] ∧
    (resolve remote true st req).2.cache.length = st.cache.length + 1 ∧
    (∀ k, k ≠ cacheKey req →
      lookupCache (resolve remote true st req).2.cache k =
        lookupCache st.cache k) ∧
    lookupCache (resolve remote true st req).2.cache (cacheKey req) =
      some bytes := by
  have h1 := resolve_miss_eq remote st req bytes hvalid hsupp hmiss hremote
  rw [h1]
  refine ⟨rfl, by simp, fun k hk => ?_, lookupCache_append_self _ _ _ hmiss⟩
  exact lookupCache_append_other _ _ _ _ hk

/-- C7 witness: a miss against a one-entry cache keeps the old entry and
adds exactly one file. -/
theorem resolve_miss_writes_one_file_witness :
    demoRequest.bounding_box.valid = true ∧
    lookupCache (FetchState.cache ⟨[oldEntry], 0⟩) (cacheKey demoRequest) = none ∧
    ((resolve demoRemote true ⟨[oldEntry], 0⟩ demoRequest).2.cache =
      FetchState.cache ⟨[oldEntry], 0⟩ ++ [(cacheKey demoRequest, [7])] ∧
     (resolve demoRemote true ⟨[oldEntry], 0⟩ demoRequest).2.cache.length =
      (FetchState.cache ⟨[oldEntry], 0⟩).length + 1 ∧
     (∀ k, k ≠ cacheKey demoRequest →
       lookupCache (resolve demoRemote true ⟨[oldEntry], 0⟩ demoRequest).2.cache k =
         lookupCache (FetchState.cache ⟨[oldEntry], 0⟩) k) ∧
     lookupCache (resolve demoRemote true ⟨[oldEntry], 0⟩ demoRequest).2.cache
       (cacheKey demoRequest) = some [7]) :=
  ⟨by decide, by decide,
    resolve_miss_writes_one_file demoRemote ⟨[oldEntry], 0⟩ demoRequest [7]
      (by decide) (by decide) (by decide) (by decide)⟩

/-! ## Raster grid format and the Grid Preparer's loader -/

/-- A raster elevation file: a header (grid dimensions, origin, cell size,
no-data value) followed by the row-major elevation values.  This is the
header-plus-row-major format of §6; values are exact rationals, the
shallow embedding of the file's decimal numbers. -/
structure RasterFileData where
  ncols : Nat
  nrows : Nat
  xllcorner : ℚ
  yllcorner : ℚ
  cellsize : ℚ
  nodata_value : ℚ
  values : List ℚ
deriving Repr, DecidableEq

/-- Error raised on a malformed raster file. -/
inductive FormatError where
  | shapeMismatch
deriving Repr, DecidableEq

/-- Modelled from the spec: `load_geographic(path) -> GeographicGrid`
(§4.2), implemented by the external landlab `read_esri_ascii` (notebook
cell 14), not under src/.  Parses the header-plus-row-major file into a
geographic grid, allocating the elevation field; fails with `FormatError`
on a row/column count mismatch against the declared shape. -/
def load_geographic (s : Store) (f : RasterFileData) :
    Except FormatError (Store × GeographicGrid) :=
  if f.values.length ≠ f.ncols * f.nrows then
    .error .shapeMismatch
  else
    let a := s.alloc f.values
    .ok (a.1, { rows := f.nrows, cols := f.ncols, elevRef := a.2 })

/-- Modelled from the spec: writing a GeographicGrid to the raster grid
format (§6): the header holds the grid dimensions, origin, cell size and
no-data value, followed by the row-major elevation values. -/
def write_raster (s : Store) (g : GeographicGrid)
    (xll yll cellsize nodata : ℚ) : RasterFileData :=
  { ncols := g.cols, nrows := g.rows, xllcorner := xll, yllcorner := yll,
    cellsize := cellsize, nodata_value := nodata,
    values := s.read g.elevRef }

/-- C5: writing a geographic grid to the raster format and loading the file
back yields a grid of the same shape whose elevation agrees with the
original at every (row, col) within 1e-6 (here the round trip is exact). -/
theorem raster_round_trip (s s2 : Store) (g : GeographicGrid)
    (xll yll cellsize nodata : ℚ)
    (hwf : (s.read g.elevRef).length = g.cols * g.rows) :
    ∃ s2' g', load_geographic s2 (write_raster s g xll yll cellsize nodata) =
        .ok (s2', g') ∧
      g'.rows = g.rows ∧ g'.cols = g.cols ∧
      ∀ r c, r < g.rows → c < g.cols →
        |g'.elev s2' r c - g.elev s r c| ≤ 1 / 1000000 := by
  refine ⟨(s2.alloc (s.read g.elevRef)).1,
    ⟨g.rows, g.cols, (s2.alloc (s.read g.elevRef)).2⟩, ?_, rfl, rfl, ?_⟩
  · rw [load_geographic, if_neg (by simp [write_raster, hwf])]
    rfl
  · intro r c _ _
    have hv : GeographicGrid.elev ⟨g.rows, g.cols, (s2.alloc (s.read g.elevRef)).2⟩
        (s2.alloc (s.read g.elevRef)).1 r c = g.elev s r c := by
      show ((s2.alloc (s.read g.elevRef)).1.read
        (s2.alloc (s.read g.elevRef)).2).getD _ 0 = _
      rw [Store.read_alloc_fresh]
      rfl
    rw [hv, sub_self, abs_zero]
    norm_num

/-- C5 witness: a concrete 1×2 grid round-trips through the raster format. -/
theorem raster_round_trip_witness :
    (Store.read ⟨[[5, 6]]⟩ 0).length =
      GeographicGrid.cols ⟨1, 2, 0⟩ * GeographicGrid.rows ⟨1, 2, 0⟩ ∧
    ∃ s2' g', load_geographic ⟨[]⟩
        (write_raster ⟨[[5, 6]]⟩ ⟨1, 2, 0⟩ 0 0 1 (-9999)) = .ok (s2', g') ∧
      g'.rows = 1 ∧ g'.cols = 2 ∧
      ∀ r c, r < 1 → c < 2 →
        |g'.elev s2' r c - GeographicGrid.elev ⟨1, 2, 0⟩ ⟨[[5, 6]]⟩ r c| ≤
          1 / 1000000 :=
  ⟨by decide,
    raster_round_trip ⟨[[5, 6]]⟩ ⟨[]⟩ ⟨1, 2, 0⟩ 0 0 1 (-9999) (by decide)⟩

/-- C8: each of the three operations either returns a fully constructed
result or a typed error, never an intermediate state: a failing `resolve`
leaves the fetch state exactly as it was; a successful `load_geographic`
returns a grid whose elevation field matches its declared shape; a
successful `reproject_to_metric` returns a grid of the source's shape whose
elevation array is a complete copy of the source's. -/
theorem workflow_typed_errors_no_partial_result
    (remote : CacheKey → Option (List Nat)) (storageOk : Bool)
    (st : FetchState) (req : RasterRequest) (s : Store) (f : RasterFileData)
    (s3 : Store) (g : GeographicGrid) (spacing_m : ℚ) :
    ((∃ e, (resolve remote storageOk st req).1 = .error e ∧
        (resolve remote storageOk st req).2 = st) ∨
     (∃ path, (resolve remote storageOk st req).1 = .ok path)) ∧
    ((∃ e, load_geographic s f = .error e) ∨
     (∃ s' g', load_geographic s f = .ok (s', g') ∧
        (s'.read g'.elevRef).length = g'.cols * g'.rows)) ∧
    ((∃ e, reproject_to_metric s3 g spacing_m = .error e) ∨
     (∃ s' p, reproject_to_metric s3 g spacing_m = .ok (s', p) ∧
        p.rows = g.rows ∧ p.cols = g.cols ∧
        s'.read p.elevRef = s3.read g.elevRef)) := by
  refine ⟨?_, ?_, ?_⟩
  · rw [resolve]
    by_cases hv : ¬req.bounding_box.valid
    · rw [if_pos hv]
      exact Or.inl ⟨.RequestError, rfl, rfl⟩
    · rw [if_neg hv]
      by_cases hd : req.dataset_id ∉ supportedDatasets
      · rw [if_pos hd]
        exact Or.inl ⟨.RequestError, rfl, rfl⟩
      · rw [if_neg hd]
        cases hcache : lookupCache st.cache (cacheKey req) with
        | some b =>
          simp only [hcache]
          exact Or.inr ⟨cachePathOf req, rfl⟩
        | none =>
          simp only [hcache]
          by_cases hs : ¬storageOk
          · rw [if_pos hs]
            exact Or.inl ⟨.StorageError, rfl, rfl⟩
          · rw [if_neg hs]
            cases hr : remote (cacheKey req) with
            | none =>
              simp only [hr]
              refine Or.inl ⟨.TransferError, ?_, ?_⟩ <;> simp
            | some bytes =>
              simp only [hr]
              exact Or.inr ⟨cachePathOf req, rfl⟩
  · rw [load_geographic]
    by_cases hlen : f.values.length ≠ f.ncols * f.nrows
    · rw [if_pos hlen]
      exact Or.inl ⟨.shapeMismatch, rfl⟩
    · rw [if_neg hlen]
      refine Or.inr ⟨(s.alloc f.values).1, ⟨f.nrows, f.ncols, (s.alloc f.values).2⟩,
        rfl, ?_⟩
      show ((s.alloc f.values).1.read (s.alloc f.values).2).length = _
      rw [Store.read_alloc_fresh]
      exact not_ne_iff.mp hlen
  · rw [reproject_to_metric]
    by_cases hsp : spacing_m ≤ 0
    · rw [if_pos hsp]
      exact Or.inl ⟨.nonPositiveSpacing, rfl⟩
    · rw [if_neg hsp]
      refine Or.inr ⟨(s3.alloc (s3.read g.elevRef)).1,
        ⟨g.rows, g.cols, spacing_m, (s3.alloc (s3.read g.elevRef)).2⟩,
        rfl, rfl, rfl, ?_⟩
      exact Store.read_alloc_fresh s3 (s3.read g.elevRef)

/-! ## The notebook's plotting helper and landslide histogram -/

/-- The in-place drainage update performed by the plotting helper:
`grid.at_node["drainage_area"][grid.at_node["drainage_area"] == 0] =
grid.dx * grid.dx` — every zero entry becomes dx*dx, other entries are
untouched. -/
def fillZeroDA (dxv : ℚ) (field : List ℚ) : List ℚ :=
  field.map (fun x => if x = 0 then dxv * dxv else x)

/-- The state the plotting helper touches: the grid's spacing and its
`drainage_area` and `hill_drainage_area` node fields. -/
structure SimGrid where
  dx : ℚ
  drainage_area : List ℚ
  hill_drainage_area : List ℚ
deriving Repr, DecidableEq

/-- The notebook's `plotting(grid, topo=True, DA=True, hill_DA=False, ...)`
helper (cell 20), restricted to its effect on the grid argument: the
`topo` branch only draws; the `DA` branch overwrites the zero entries of
`drainage_area` with dx*dx; the `hill_DA` branch does the same to
`hill_drainage_area`.  All rendering is set aside. -/
def plotting (grid : SimGrid) (topo DA hill_DA : Bool) : SimGrid :=
  let g1 :=
    if DA then
      { grid with drainage_area := fillZeroDA grid.dx grid.drainage_area }
    else grid
  if hill_DA then
    { g1 with hill_drainage_area := fillZeroDA g1.dx g1.hill_drainage_area }
  else g1

theorem fillZeroDA_ne_zero (dxv : ℚ) (l : List ℚ) (hdx : dxv ≠ 0) :
    ∀ x ∈ fillZeroDA dxv l, x ≠ 0 := by
  intro x hx
  rw [fillZeroDA, List.mem_map] at hx
  obtain ⟨y, hy, hxy⟩ := hx
  by_cases hy0 : y = 0
  · rw [← hxy, if_pos hy0]
    exact mul_ne_zero hdx hdx
  · rw [← hxy, if_neg hy0]
    exact hy0

theorem fillZeroDA_ne_of_zero_mem (dxv : ℚ) (l : List ℚ) (hdx : dxv ≠ 0)
    (h0 : (0 : ℚ) ∈ l) : fillZeroDA dxv l ≠ l := by
  intro heq
  obtain ⟨i, hi, hli⟩ := List.getElem_of_mem h0
  have h1 : (fillZeroDA dxv l)[i]? = l[i]? := by rw [heq]
  rw [fillZeroDA, List.getElem?_map, List.getElem?_eq_getElem hi, hli] at h1
  rw [Option.map_some', if_pos rfl] at h1
  exact mul_ne_zero hdx hdx (Option.some.inj h1)

/-- C9 counterexample: on a grid (dx = 30) whose `drainage_area` and
`hill_drainage_area` fields contain no zero entry, `plotting` with DA=true
and hill_DA=true returns the grid exactly as it was — the pre-call field
values ARE preserved, refuting the claim that for every grid the pre-call
field values are not preserved. -/
theorem plotting_preserves_nonzero_fields :
    plotting ⟨30, [1, 2], [3]⟩ true true true = ⟨30, [1, 2], [3]⟩ ∧
    (plotting ⟨30, [1, 2], [3]⟩ true true true).drainage_area =
      SimGrid.drainage_area ⟨30, [1, 2], [3]⟩ := by
  constructor <;> decide

/-- C9 (amended): `plotting` with DA=true replaces exactly the zero entries
of `drainage_area` with dx*dx and leaves the other entries unchanged; since
dx ≠ 0, no entry of the updated field is zero; and whenever some entry was
zero the pre-call field values are not preserved.  The same holds for
hill_DA=true and `hill_drainage_area`. -/
theorem plotting_mutates_zero_drainage (g : SimGrid) (hdx : g.dx ≠ 0) :
    (plotting g true true false).drainage_area =
      g.drainage_area.map (fun x => if x = 0 then g.dx * g.dx else x) ∧
    (∀ x ∈ (plotting g true true false).drainage_area, x ≠ 0) ∧
    ((0 : ℚ) ∈ g.drainage_area →
      (plotting g true true false).drainage_area ≠ g.drainage_area) ∧
    (plotting g true false true).hill_drainage_area =
      g.hill_drainage_area.map (fun x => if x = 0 then g.dx * g.dx else x) ∧
    (∀ x ∈ (plotting g true false true).hill_drainage_area, x ≠ 0) ∧
    ((0 : ℚ) ∈ g.hill_drainage_area →
      (plotting g true false true).hill_drainage_area ≠ g.hill_drainage_area) := by
  refine ⟨rfl, ?_, ?_, rfl, ?_, ?_⟩
  · exact fillZeroDA_ne_zero g.dx g.drainage_area hdx
  · exact fun h0 => fillZeroDA_ne_of_zero_mem g.dx g.drainage_area hdx h0
  · exact fillZeroDA_ne_zero g.dx g.hill_drainage_area hdx
  · exact fun h0 => fillZeroDA_ne_of_zero_mem g.dx g.hill_drainage_area hdx h0

/-- C9 witness for the amended claim: a grid with zero entries, dx = 30. -/
theorem plotting_mutates_zero_drainage_witness :
    SimGrid.dx ⟨30, [0, 5], [0]⟩ ≠ 0 ∧
    ((plotting ⟨30, [0, 5], [0]⟩ true true false).drainage_area =
      (SimGrid.drainage_area ⟨30, [0, 5], [0]⟩).map
        (fun x => if x = 0 then SimGrid.dx ⟨30, [0, 5], [0]⟩ *
          SimGrid.dx ⟨30, [0, 5], [0]⟩ else x) ∧
     (∀ x ∈ (plotting ⟨30, [0, 5], [0]⟩ true true false).drainage_area, x ≠ 0) ∧
     ((0 : ℚ) ∈ SimGrid.drainage_area ⟨30, [0, 5], [0]⟩ →
       (plotting ⟨30, [0, 5], [0]⟩ true true false).drainage_area ≠
         SimGrid.drainage_area ⟨30, [0, 5], [0]⟩) ∧
     (plotting ⟨30, [0, 5], [0]⟩ true false true).hill_drainage_area =
      (SimGrid.hill_drainage_area ⟨30, [0, 5], [0]⟩).map
        (fun x => if x = 0 then SimGrid.dx ⟨30, [0, 5], [0]⟩ *
          SimGrid.dx ⟨30, [0, 5], [0]⟩ else x) ∧
     (∀ x ∈ (plotting ⟨30, [0, 5], [0]⟩ true false true).hill_drainage_area,
       x ≠ 0) ∧
     ((0 : ℚ) ∈ SimGrid.hill_drainage_area ⟨30, [0, 5], [0]⟩ →
       (plotting ⟨30, [0, 5], [0]⟩ true false true).hill_drainage_area ≠
         SimGrid.hill_drainage_area ⟨30, [0, 5], [0]⟩)) :=
  ⟨by decide, plotting_mutates_zero_drainage ⟨30, [0, 5], [0]⟩ (by decide)⟩

/-- The recorded landslide areas of cell 28:
`LS_size = np.array(ls.landslides_size) * grid.dx**2`. -/
def LS_size (dxv : ℚ) (landslides_size : List ℚ) : List ℚ :=
  landslides_size.map (fun s => s * dxv ^ 2)

/-- `np.log10` returns a finite value precisely on strictly positive
arguments (log10 of 0 is -inf, of a negative number nan); this Boolean is
the domain condition for the histogram inputs `np.log10(LS_size)`. -/
def log10Finite (x : ℚ) : Bool :=
  decide (0 < x)

theorem mul_sq_pos_iff (dxv s : ℚ) (hdx : dxv ≠ 0) :
    0 < s * dxv ^ 2 ↔ 0 < s := by
  have hsq : 0 < dxv ^ 2 :=
    lt_of_le_of_ne (sq_nonneg dxv) (Ne.symm (pow_ne_zero 2 hdx))
  constructor
  · intro h
    rcases mul_pos_iff.mp h with ⟨hs, _⟩ | ⟨_, hd⟩
    · exact hs
    · exact absurd hsq (not_lt.mpr hd.le)
  · intro hs
    exact mul_pos hs hsq

/-- C10: every histogram input `log10(LS_size)` is finite exactly when
every recorded landslide size is strictly positive; in particular, in any
run where a recorded size is zero, some histogram input is non-finite. -/
theorem LS_size_log10_defined (dxv : ℚ) (landslides_size : List ℚ)
    (hdx : dxv ≠ 0) :
    ((∀ x ∈ LS_size dxv landslides_size, log10Finite x = true) ↔
      ∀ s ∈ landslides_size, 0 < s) ∧
    ((0 : ℚ) ∈ landslides_size →
      ∃ x ∈ LS_size dxv landslides_size, log10Finite x = false) := by
  constructor
  · constructor
    · intro h s hs
      have hx := h (s * dxv ^ 2) (List.mem_map.mpr ⟨s, hs, rfl⟩)
      rw [log10Finite, decide_eq_true_eq] at hx
      exact (mul_sq_pos_iff dxv s hdx).mp hx
    · intro h x hx
      obtain ⟨s, hs, rfl⟩ := List.mem_map.mp hx
      rw [log10Finite, decide_eq_true_eq]
      exact (mul_sq_pos_iff dxv s hdx).mpr (h s hs)
  · intro h0
    refine ⟨0 * dxv ^ 2, List.mem_map.mpr ⟨0, h0, rfl⟩, ?_⟩
    rw [log10Finite, decide_eq_false_iff_not, zero_mul]
    exact lt_irrefl 0

/-- C10 witness: dx = 30 and one recorded landslide of size 0. -/
theorem LS_size_log10_defined_witness :
    (30 : ℚ) ≠ 0 ∧
    (((∀ x ∈ LS_size 30 [0], log10Finite x = true) ↔
       ∀ s ∈ ([0] : List ℚ), 0 < s) ∧
     ((0 : ℚ) ∈ ([0] : List ℚ) →
       ∃ x ∈ LS_size 30 [0], log10Finite x = false)) :=
  ⟨by decide, LS_size_log10_defined 30 [0] (by decide)⟩

end LandslideNotebook
